/-
Verification development for the pt-http-client repository.

Shallow embedding of:
  * src/pt_http_client/auth/bearer.py   (BearerTokenAuth with process-wide token cache,
    user switching via a context manager)
  * core/auth/bearer.py                 (BearerTokenAuth with a per-instance token field)
  * core/client.py                      (HttpClient: lazy transport, hooks, close)
  * src/pt_http_client/event_hooks/abstract_hook_handler.py (_truncate_body)
  * src/pt_http_client/event_hooks/curl_handler.py          (CurlHandler.request_hook)
plus a spec-modelled send pipeline for the expected-status check whose implementing
module (core/exceptions.py and the richer client) is absent from the sources.

Network effects are modelled by explicit oracles (the token endpoint as a function
from the posted form data to a response); the process-wide cache is explicit state.
-/
import Mathlib

namespace HttpModel

/-- An HTTP request as seen by auth providers and hooks: method, full URL string,
URL path, headers (an ordered key/value map) and raw content. -/
structure Request where
  method : String
  urlStr : String
  urlPath : String
  headers : List (String × String)
  content : String
deriving Repr, DecidableEq

/-- Dict-like update of a header map: replace the value if the key is present,
append otherwise (models assignment into httpx Headers). -/
def headerInsert : List (String × String) → String → String → List (String × String)
  | [], k, v => [(k, v)]
  | (k2, v2) :: rest, k, v =>
      if k2 = k then (k2, v) :: rest else (k2, v2) :: headerInsert rest k v

/-- request.headers[k] = v -/
def setHeader (r : Request) (k v : String) : Request :=
  { r with headers := headerInsert r.headers k v }

/-- Response of the token endpoint: status code and the parsed JSON object body
(modelled as an association list of string fields). -/
structure TokenResponse where
  status : Nat
  body : List (String × String)
deriving Repr, DecidableEq

/-- The form-encoded data POSTed to the token endpoint by _fetch_token. -/
structure TokenRequestData where
  grant_type : String
  client_id : String
  client_secret : String
  username : String
  password : String
  scope : String
  response_type : String
deriving Repr, DecidableEq

/-- Failures of a token fetch: httpx.Response.raise_for_status on a non-2xx
status, or a KeyError when the JSON body lacks the access_token field. -/
inductive FetchError where
  | httpStatusError (status : Nat)
  | keyError
deriving Repr, DecidableEq

/-- httpx success statuses: 2xx (raise_for_status raises on everything else). -/
def is_success (status : Nat) : Bool :=
  200 ≤ status && status < 300

/-- Field lookup in a parsed JSON object (token_data["access_token"]). -/
def lookupField : List (String × String) → String → Option String
  | [], _ => none
  | (k2, v) :: rest, k => if k2 = k then some v else lookupField rest k

end HttpModel

namespace PtAuth

open HttpModel

/-- Identity key of the token cache: the (username, password) pair. -/
abbrev UserKey := String × String

/-- The process-wide (class-level) token cache _token_cache. -/
abbrev TokenCache := List (UserKey × String)

/-- Dict lookup in the token cache. -/
def cacheLookup : TokenCache → UserKey → Option String
  | [], _ => none
  | (k2, v) :: rest, k => if k2 = k then some v else cacheLookup rest k

/-- Dict assignment into the token cache: overwrite the entry if present,
append otherwise. -/
def cacheInsert : TokenCache → UserKey → String → TokenCache
  | [], k, v => [(k, v)]
  | (k2, v2) :: rest, k, v =>
      if k2 = k then (k2, v) :: rest else (k2, v2) :: cacheInsert rest k v

/-- Instance state of src/pt_http_client/auth/bearer.py BearerTokenAuth
(the class-level _token_cache is passed separately). -/
structure BearerTokenAuth where
  token_url : String
  client_id : String
  client_secret : String
  username : String
  password : String
  scope : String
  response_type : String
  grant_type : String
  admin_user : UserKey
  current_user_key : UserKey
deriving Repr, DecidableEq

/-- BearerTokenAuth.__init__: stores the credentials and records the
construction-time identity as both the admin user and the current user key. -/
def BearerTokenAuth.init (token_url client_id client_secret username password
    scope response_type grant_type : String) : BearerTokenAuth :=
  { token_url := token_url
    client_id := client_id
    client_secret := client_secret
    username := username
    password := password
    scope := scope
    response_type := response_type
    grant_type := grant_type
    admin_user := (username, password)
    current_user_key := (username, password) }

/-- The form data dict built inside _fetch_token. -/
def requestData (a : BearerTokenAuth) : TokenRequestData :=
  { grant_type := a.grant_type
    client_id := a.client_id
    client_secret := a.client_secret
    username := a.username
    password := a.password
    scope := a.scope
    response_type := a.response_type }

/-- BearerTokenAuth._fetch_token. Returns the token (or the raised error), the
token cache after the call, and whether a network call to the token endpoint
was performed. The endpoint is an oracle from the posted form data to its
response. Source order: cache lookup, POST, raise_for_status, JSON field
access, cache store. -/
def fetch_token (a : BearerTokenAuth) (cache : TokenCache)
    (endpoint : TokenRequestData → TokenResponse) :
    Except FetchError String × TokenCache × Bool :=
  match cacheLookup cache a.current_user_key with
  | some tok => (Except.ok tok, cache, false)
  | none =>
      let resp := endpoint (requestData a)
      if is_success resp.status then
        match lookupField resp.body "access_token" with
        | some token =>
            (Except.ok token, cacheInsert cache a.current_user_key token, true)
        | none => (Except.error FetchError.keyError, cache, true)
      else (Except.error (FetchError.httpStatusError resp.status), cache, true)

/-- BearerTokenAuth.auth_flow: fetch a token (cache or network) and set the
Authorization header to "Bearer token" on the outgoing request. -/
def auth_flow (a : BearerTokenAuth) (cache : TokenCache)
    (endpoint : TokenRequestData → TokenResponse) (request : Request) :
    Except FetchError Request × TokenCache × Bool :=
  match fetch_token a cache endpoint with
  | (Except.ok token, cache2, net) =>
      (Except.ok (setHeader request "Authorization" ("Bearer " ++ token)), cache2, net)
  | (Except.error e, cache2, net) => (Except.error e, cache2, net)

/-- BearerTokenAuth._update_user. -/
def update_user (a : BearerTokenAuth) (username password : String) : BearerTokenAuth :=
  { a with
    username := username
    password := password
    current_user_key := (username, password) }

/-- BearerTokenAuth._switch_to_admin. -/
def switch_to_admin (a : BearerTokenAuth) : BearerTokenAuth :=
  update_user a a.admin_user.1 a.admin_user.2

/-- How the caller's block inside the switch_to_user context manager ends. -/
inductive BlockExit where
  | normal
  | raised
deriving Repr, DecidableEq

/-- BearerTokenAuth.switch_to_user, a @contextmanager whose generator body is
`_update_user(...); yield; _switch_to_admin()` with no try/finally. The
caller's block is `body`, run against the switched state; if the block raises
(`BlockExit.raised`) the exception propagates at the yield point and the
statement after the yield never runs. -/
def switch_to_user_run (a : BearerTokenAuth) (username password : String)
    (body : BearerTokenAuth → BearerTokenAuth) (outcome : BlockExit) : BearerTokenAuth :=
  let entered := update_user a username password
  let after := body entered
  match outcome with
  | BlockExit.normal => switch_to_admin after
  | BlockExit.raised => after

/-- A sequence of authenticated requests under the auth provider `a`: run
auth_flow once per request, threading the cache, and count the token-endpoint
network calls performed. -/
def authSeq (a : BearerTokenAuth) (endpoint : TokenRequestData → TokenResponse) :
    List Request → TokenCache → TokenCache × Nat
  | [], cache => (cache, 0)
  | r :: rest, cache =>
      match auth_flow a cache endpoint r with
      | (_, cache2, net) =>
          let step := authSeq a endpoint rest cache2
          (step.1, (if net then 1 else 0) + step.2)

end PtAuth

namespace CoreAuth

open HttpModel

/-- Instance state of core/auth/bearer.py BearerTokenAuth: same credential
fields, a single per-instance cached token _token, no process-wide cache and
no user switching. -/
structure BearerTokenAuth where
  token_url : String
  client_id : String
  client_secret : String
  username : String
  password : String
  scope : String
  response_type : String
  grant_type : String
  token : Option String
deriving Repr, DecidableEq

/-- core BearerTokenAuth.__init__ (sets _token to None). -/
def BearerTokenAuth.init (token_url client_id client_secret username password
    scope response_type grant_type : String) : BearerTokenAuth :=
  { token_url := token_url
    client_id := client_id
    client_secret := client_secret
    username := username
    password := password
    scope := scope
    response_type := response_type
    grant_type := grant_type
    token := none }

/-- The form data dict built inside core _fetch_token. -/
def requestData (a : BearerTokenAuth) : TokenRequestData :=
  { grant_type := a.grant_type
    client_id := a.client_id
    client_secret := a.client_secret
    username := a.username
    password := a.password
    scope := a.scope
    response_type := a.response_type }

/-- core BearerTokenAuth._fetch_token: always POSTs to the token endpoint
(no cache consultation), raise_for_status, then reads access_token. The Bool
records that a network call was performed. -/
def fetch_token (a : BearerTokenAuth)
    (endpoint : TokenRequestData → TokenResponse) : Except FetchError String × Bool :=
  let resp := endpoint (requestData a)
  if is_success resp.status then
    match lookupField resp.body "access_token" with
    | some t => (Except.ok t, true)
    | none => (Except.error FetchError.keyError, true)
  else (Except.error (FetchError.httpStatusError resp.status), true)

/-- core BearerTokenAuth.auth_flow: fetch only when _token is None, then set
the Authorization header. Returns the modified request and updated instance,
plus whether a token fetch was performed. -/
def auth_flow (a : BearerTokenAuth)
    (endpoint : TokenRequestData → TokenResponse) (request : Request) :
    Except FetchError (Request × BearerTokenAuth) × Bool :=
  match a.token with
  | some t =>
      (Except.ok (setHeader request "Authorization" ("Bearer " ++ t), a), false)
  | none =>
      match fetch_token a endpoint with
      | (Except.ok t, _) =>
          (Except.ok (setHeader request "Authorization" ("Bearer " ++ t),
            { a with token := some t }), true)
      | (Except.error e, _) => (Except.error e, true)

/-- core BearerTokenAuth.refresh_token: `self._token = self._fetch_token();
return self._token` — unconditional fetch, overwrite, return. -/
def refresh_token (a : BearerTokenAuth)
    (endpoint : TokenRequestData → TokenResponse) :
    Except FetchError (String × BearerTokenAuth) × Bool :=
  match fetch_token a endpoint with
  | (Except.ok t, net) => (Except.ok (t, { a with token := some t }), net)
  | (Except.error e, net) => (Except.error e, net)

end CoreAuth

namespace Client

/-- A bound hook callback of the underlying transport: `handler.request_hook`
or `handler.response_hook` of the handler with the given identity. -/
inductive HookFn where
  | onRequest (handler : Nat)
  | onResponse (handler : Nat)
deriving Repr, DecidableEq

/-- The underlying httpx.Client object as configured by _setup_client:
construction arguments plus the two bound event-hook lists. -/
structure Transport where
  base_url : String
  timeout : Nat
  verify : Bool
  auth : Option Nat
  headers : List (String × String)
  kwargs : List (String × String)
  request_hooks : List HookFn
  response_hooks : List HookFn
deriving Repr, DecidableEq

/-- State of core/client.py HttpClient. Handlers and the auth object are
identified by opaque ids. -/
structure HttpClient where
  base_url : String
  timeout : Nat
  verify : Bool
  auth : Option Nat
  default_headers : List (String × String)
  kwargs : List (String × String)
  handlers : List Nat
  client : Option Transport
deriving Repr, DecidableEq

/-- base_url.rstrip of trailing slash characters. -/
def dropLeadingSlashes : List Char → List Char
  | [] => []
  | c :: rest => if c = '/' then dropLeadingSlashes rest else c :: rest

/-- Python str.rstrip of a trailing run of slashes. -/
def rstripSlash (s : String) : String :=
  String.mk (dropLeadingSlashes s.data.reverse).reverse

/-- HttpClient.__init__: strips trailing slashes from base_url, copies the
default headers, starts with no underlying transport, and uses the three
default handlers (ids 0, 1, 2 for AllureHandler, CurlHandler, LoggingHandler)
when no handler list is given. -/
def HttpClient.init (base_url : String) (timeout : Nat) (verify : Bool)
    (auth : Option Nat) (default_headers : List (String × String))
    (kwargs : List (String × String)) (handlers : Option (List Nat)) : HttpClient :=
  { base_url := rstripSlash base_url
    timeout := timeout
    verify := verify
    auth := auth
    default_headers := default_headers
    kwargs := kwargs
    handlers := handlers.getD [0, 1, 2]
    client := none }

/-- HttpClient._update_client_hooks: when a transport exists, rebuild both of
its bound hook lists from the handler list, in handler-list order. -/
def update_client_hooks (c : HttpClient) : HttpClient :=
  match c.client with
  | none => c
  | some t =>
      { c with client := some { t with
          request_hooks := c.handlers.map HookFn.onRequest
          response_hooks := c.handlers.map HookFn.onResponse } }

/-- HttpClient.add_handler: append the handler, and when a transport already
exists rebuild its hooks immediately. -/
def add_handler (c : HttpClient) (h : Nat) : HttpClient :=
  let c2 := { c with handlers := c.handlers ++ [h] }
  match c2.client with
  | some _ => update_client_hooks c2
  | none => c2

/-- The httpx.Client constructed by _setup_client (hooks are bound right after
construction by _update_client_hooks). -/
def newTransport (c : HttpClient) : Transport :=
  { base_url := c.base_url
    timeout := c.timeout
    verify := c.verify
    auth := c.auth
    headers := c.default_headers
    kwargs := c.kwargs
    request_hooks := []
    response_hooks := [] }

/-- HttpClient._setup_client: create the transport if absent, then bind hooks. -/
def setup_client (c : HttpClient) : HttpClient :=
  match c.client with
  | some _ => c
  | none => update_client_hooks { c with client := some (newTransport c) }

/-- HttpClient.close: release the transport when present and forget it. The
Nat counts how many underlying transport close() calls were performed. -/
def close (c : HttpClient) : HttpClient × Nat :=
  match c.client with
  | some _ => ({ c with client := none }, 1)
  | none => (c, 0)

/-- HttpClient._send up to the transport call: ensure the transport exists and
run the request against it; `respond` is the transport oracle. -/
def send_state {α : Type} (c : HttpClient) (respond : Transport → α) :
    HttpClient × Option α :=
  let c2 := setup_client c
  (c2, c2.client.map respond)

/-- The transport that _setup_client yields for a client: constructed from the
stored configuration, with both hook lists bound from the handler list. -/
def boundTransport (c : HttpClient) : Transport :=
  { newTransport c with
    request_hooks := c.handlers.map HookFn.onRequest
    response_hooks := c.handlers.map HookFn.onResponse }

/-- Both bound hook lists of the live transport (if any) are exactly the
handlers' hooks in handler-list order. -/
def hooksBound (c : HttpClient) : Bool :=
  match c.client with
  | none => true
  | some t =>
      decide (t.request_hooks = c.handlers.map HookFn.onRequest) &&
      decide (t.response_hooks = c.handlers.map HookFn.onResponse)

end Client

namespace Pipeline

/-- An HTTP response as seen by the send pipeline: status code and raw body. -/
structure HttpResponse where
  status : Nat
  bodyText : String
deriving Repr, DecidableEq

/-- Errors of the send pipeline that the claims exercise. -/
inductive SendError where
  | unexpectedStatus (expected actual : Nat) (body : String)
deriving Repr, DecidableEq

/-- Modelled from the spec: the repository's richer send pipeline
(HttpClient._send with an expected_status parameter raising
core.exceptions.UnexpectedStatusError) is absent from the sources — only its
callers (examples/example.py) and the package import of UnexpectedStatusError
remain. Per the spec, the expected-status check runs on the response that
survives the optional caller-supplied retry policy and carries expected code,
actual code and the raw body. -/
def check_expected_status (expected : Option Nat) (resp : HttpResponse) :
    Except SendError HttpResponse :=
  match expected with
  | none => Except.ok resp
  | some e =>
      if resp.status = e then Except.ok resp
      else Except.error (SendError.unexpectedStatus e resp.status resp.bodyText)

/-- Modelled from the spec: the response that survives the retry step — the
retry policy, when supplied, wraps the zero-argument request thunk and its
result is what the rest of the pipeline sees. -/
def survivingResponse (doRequest : Unit → HttpResponse)
    (retryPolicy : Option ((Unit → HttpResponse) → HttpResponse)) : HttpResponse :=
  match retryPolicy with
  | some policy => policy doRequest
  | none => doRequest ()

/-- Modelled from the spec: send = execute (through the optional retry policy),
then the expected-status assertion on whatever response survived retries. -/
def send (doRequest : Unit → HttpResponse)
    (retryPolicy : Option ((Unit → HttpResponse) → HttpResponse))
    (expected : Option Nat) : Except SendError HttpResponse :=
  check_expected_status expected (survivingResponse doRequest retryPolicy)

end Pipeline

namespace Hook

/-- A Python value handed to AbstractHookHandler._truncate_body. Each
constructor carries the str() rendering of the value; the constructor records
the isinstance class that _truncate_body dispatches on (str, dict, list, or
anything else such as a JSON number, bool or None from json.loads). -/
inductive PyData where
  | str (s : String)
  | dict (s : String)
  | list (s : String)
  | other (s : String)
deriving Repr, DecidableEq

/-- Python str(data). -/
def PyData.pyStr : PyData → String
  | PyData.str s => s
  | PyData.dict s => s
  | PyData.list s => s
  | PyData.other s => s

/-- isinstance(data, (dict, list, str)). -/
def PyData.isTruncatable : PyData → Bool
  | PyData.str _ => true
  | PyData.dict _ => true
  | PyData.list _ => true
  | PyData.other _ => false

/-- The max_body_length constant of _truncate_body. -/
def maxBodyLength : Nat := 40000

/-- The truncate_message marker of _truncate_body. -/
def truncateMessage : String := "... [Данные обрезаны]"

/-- AbstractHookHandler._truncate_body: for dict/list/str whose str() form is
longer than max_body_length, return the first max_body_length characters plus
the marker (a str); otherwise return the data unchanged. -/
def truncate_body (data : PyData) : PyData :=
  if data.isTruncatable then
    let dataStr := data.pyStr
    if dataStr.length > maxBodyLength then
      PyData.str (String.mk (dataStr.data.take maxBodyLength) ++ truncateMessage)
    else data
  else data

end Hook

namespace Curl

open HttpModel

/-- An allure.attach call: attachment name and text body. -/
structure Attachment where
  name : String
  body : String
deriving Repr, DecidableEq

/-- The body of the try block in CurlHandler.request_hook: generate the cURL
command (the Curlify library is an oracle that may raise), patch the known
library bug, and attach the result. Errors of the oracle propagate here. -/
def request_hook_try (toCurl : Request → Except String String) (r : Request) :
    Except String (List Attachment) :=
  match toCurl r with
  | Except.error e => Except.error e
  | Except.ok curl =>
      let curl2 := String.replace curl "-d \x27b\x27\x27\x27" "-d \x27None\x27"
      Except.ok [{ name := "cURL Command: " ++ r.method ++ " " ++ r.urlPath
                   body := curl2 }]

/-- CurlHandler.request_hook: the try block above wrapped in
`except Exception`, which attaches a diagnostic error record instead of
re-raising. -/
def request_hook (toCurl : Request → Except String String) (r : Request) :
    Except String (List Attachment) :=
  match request_hook_try toCurl r with
  | Except.ok atts => Except.ok atts
  | Except.error e =>
      Except.ok [{ name := "cURL Generation Error"
                   body := "Failed to generate cURL: " ++ e ++
                     "\nRequest: " ++ r.method ++ " " ++ r.urlStr }]

end Curl

namespace Demo

/-- A concrete auth provider constructed under the admin identity. -/
def adminAuth : PtAuth.BearerTokenAuth :=
  PtAuth.BearerTokenAuth.init "https://auth.test/token" "cid" "csecret"
    "admin" "adminpass" "read" "token" "password"

/-- A concrete outgoing request. -/
def demoRequest : HttpModel.Request :=
  { method := "GET"
    urlStr := "https://api.test/items/42"
    urlPath := "/items/42"
    headers := []
    content := "" }

/-- A token endpoint answering 200 with an access_token field. -/
def demoEndpoint : HttpModel.TokenRequestData → HttpModel.TokenResponse :=
  fun _ => { status := 200, body := [("access_token", "tokNet")] }

/-- A token endpoint answering 500 with an empty body. -/
def endpoint500 : HttpModel.TokenRequestData → HttpModel.TokenResponse :=
  fun _ => { status := 500, body := [] }

/-- A cache already holding a token for the admin identity. -/
def adminCache : PtAuth.TokenCache := [(("admin", "adminpass"), "tok0")]

/-- A concrete client with no transport constructed yet. -/
def freshClient : Client.HttpClient :=
  Client.HttpClient.init "https://api.test/v2/" 10 false none [] [] none

/-- The same client after its transport has been constructed. -/
def liveClient : Client.HttpClient := Client.setup_client freshClient

/-- A Curlify oracle that always raises. -/
def failingCurl : HttpModel.Request → Except String String :=
  fun _ => Except.error "boom"

/-- A core auth provider that already holds a cached token. -/
def coreAuthOld : CoreAuth.BearerTokenAuth :=
  { CoreAuth.BearerTokenAuth.init "https://auth.test/token" "cid" "csecret"
      "admin" "adminpass" "read" "token" "password" with
    token := some "old" }

/-- A response with status 404. -/
def resp404 : Pipeline.HttpResponse := { status := 404, bodyText := "not found" }

/-- The str() form of a 40001-character JSON number body. -/
def bigNumStr : String := String.mk (List.replicate 40001 '9')

/-- A 50000-character string body. -/
def body50k : String := String.mk (List.replicate 50000 'a')

end Demo

/-- C1: the spec demands that a scoped user switch restores the admin identity
on every exit path, including an exception inside the block. The context
manager's generator has no try/finally: when the block raises, the statement
after the yield (switch back to admin) never runs, so the identity stays the
switched user — the code contradicts the spec and its own docstring. This
theorem evaluates the embedded switch at the failing input: block raises after
switch_to_user("user1", "pass1") on a provider constructed as
("admin", "adminpass"); the normal exit path, by contrast, does restore. -/
theorem C1_switch_to_user_skips_restore_on_raise :
    (PtAuth.switch_to_user_run Demo.adminAuth "user1" "pass1" id
        PtAuth.BlockExit.raised).username = "user1" ∧
    (PtAuth.switch_to_user_run Demo.adminAuth "user1" "pass1" id
        PtAuth.BlockExit.raised).password = "pass1" ∧
    (PtAuth.switch_to_user_run Demo.adminAuth "user1" "pass1" id
        PtAuth.BlockExit.raised).current_user_key = ("user1", "pass1") ∧
    Demo.adminAuth.admin_user = ("admin", "adminpass") ∧
    (PtAuth.switch_to_user_run Demo.adminAuth "user1" "pass1" id
        PtAuth.BlockExit.normal).current_user_key = ("admin", "adminpass") := by
  refine ⟨rfl, rfl, rfl, rfl, rfl⟩

/-- C5: close() is idempotent — on a client with no transport it is a no-op
performing zero underlying releases; a second close() after a first is again a
no-op with zero releases; and after any close() no transport is held. -/
theorem C5_close_idempotent (c : Client.HttpClient) :
    (c.client = none → Client.close c = (c, 0)) ∧
    Client.close (Client.close c).1 = ((Client.close c).1, 0) ∧
    (Client.close c).1.client = none := by
  refine ⟨fun h => ?_, ?_, ?_⟩
  · simp [Client.close, h]
  · cases hc : c.client <;> simp [Client.close, hc]
  · cases hc : c.client <;> simp [Client.close, hc]

/-- C5 witness: closing a freshly constructed client (no transport yet) is a
no-op with zero underlying releases. -/
theorem C5_close_idempotent_witness :
    Client.close Demo.freshClient = (Demo.freshClient, 0) :=
  (C5_close_idempotent Demo.freshClient).1 rfl

/-- C7: the command-line-reproduction hook handler never propagates an
exception: whatever the Curlify oracle does, request_hook returns normally,
and when the oracle raises, the result is the diagnostic error attachment
built from the failure and the request. -/
theorem C7_curl_hook_never_raises
    (toCurl : HttpModel.Request → Except String String) (r : HttpModel.Request) :
    (∀ e, Curl.request_hook toCurl r ≠ Except.error e) ∧
    (∀ e, toCurl r = Except.error e →
      Curl.request_hook toCurl r =
        Except.ok [{ name := "cURL Generation Error"
                     body := "Failed to generate cURL: " ++ e ++
                       "\nRequest: " ++ r.method ++ " " ++ r.urlStr }]) := by
  constructor
  · intro e
    unfold Curl.request_hook Curl.request_hook_try
    cases toCurl r <;> simp
  · intro e he
    simp [Curl.request_hook, Curl.request_hook_try, he]

/-- C7 witness: a Curlify oracle that raises "boom" yields the error
attachment, not an exception. -/
theorem C7_curl_hook_witness :
    Curl.request_hook Demo.failingCurl Demo.demoRequest =
      Except.ok [{ name := "cURL Generation Error"
                   body := "Failed to generate cURL: " ++ "boom" ++
                     "\nRequest: " ++ "GET" ++ " " ++ "https://api.test/items/42" }] :=
  (C7_curl_hook_never_raises Demo.failingCurl Demo.demoRequest).2 "boom" rfl

/-- C10: a client remains usable after close(): close() keeps every
configuration field, and a request issued afterwards (send_state, the
transport-call prefix of _send) lazily constructs a fresh transport with the
same base address, timeout, TLS flag, auth, default headers, extra options and
hook bindings, and produces a response from it. -/
theorem C10_usable_after_close {α : Type} (c : Client.HttpClient)
    (respond : Client.Transport → α) :
    (Client.close c).1.base_url = c.base_url ∧
    (Client.close c).1.timeout = c.timeout ∧
    (Client.close c).1.verify = c.verify ∧
    (Client.close c).1.auth = c.auth ∧
    (Client.close c).1.default_headers = c.default_headers ∧
    (Client.close c).1.kwargs = c.kwargs ∧
    (Client.close c).1.handlers = c.handlers ∧
    Client.send_state (Client.close c).1 respond =
      ({ (Client.close c).1 with client := some (Client.boundTransport c) },
        some (respond (Client.boundTransport c))) := by
  cases hc : c.client <;>
    simp [Client.close, hc, Client.send_state, Client.setup_client,
      Client.update_client_hooks, Client.newTransport, Client.boundTransport]

/-- A dict store into the token cache is immediately visible. -/
theorem cacheLookup_cacheInsert (cache : PtAuth.TokenCache) (k : PtAuth.UserKey)
    (v : String) : PtAuth.cacheLookup (PtAuth.cacheInsert cache k v) k = some v := by
  induction cache with
  | nil => simp [PtAuth.cacheInsert, PtAuth.cacheLookup]
  | cons p rest ih =>
      obtain ⟨k2, v2⟩ := p
      by_cases hk : k2 = k
      · simp [PtAuth.cacheInsert, PtAuth.cacheLookup, hk]
      · simp [PtAuth.cacheInsert, PtAuth.cacheLookup, hk, ih]

/-- On a cache hit, auth_flow serves the cached token, leaves the cache alone
and performs no network call. -/
theorem auth_flow_cache_hit (a : PtAuth.BearerTokenAuth)
    (cache : PtAuth.TokenCache) (endpoint : HttpModel.TokenRequestData → HttpModel.TokenResponse)
    (tok : String) (h : PtAuth.cacheLookup cache a.current_user_key = some tok)
    (r : HttpModel.Request) :
    PtAuth.auth_flow a cache endpoint r =
      (Except.ok (HttpModel.setHeader r "Authorization" ("Bearer " ++ tok)), cache, false) := by
  simp [PtAuth.auth_flow, PtAuth.fetch_token, h]

/-- On a cache hit, any sequence of authenticated requests leaves the cache
alone and performs zero network calls. -/
theorem authSeq_cache_hit (a : PtAuth.BearerTokenAuth)
    (endpoint : HttpModel.TokenRequestData → HttpModel.TokenResponse)
    (cache : PtAuth.TokenCache) (tok : String)
    (h : PtAuth.cacheLookup cache a.current_user_key = some tok) :
    ∀ requests, PtAuth.authSeq a endpoint requests cache = (cache, 0) := by
  intro requests
  induction requests with
  | nil => rfl
  | cons r rest ih =>
      simp [PtAuth.authSeq, auth_flow_cache_hit a cache endpoint tok h, ih]

/-- A successful auth_flow that did perform a network call has stored the
fetched token under the current identity. -/
theorem auth_flow_net_ok_caches (a : PtAuth.BearerTokenAuth)
    (cache0 : PtAuth.TokenCache) (endpoint : HttpModel.TokenRequestData → HttpModel.TokenResponse)
    (r r2 : HttpModel.Request) (cache1 : PtAuth.TokenCache)
    (hrun : PtAuth.auth_flow a cache0 endpoint r = (Except.ok r2, cache1, true)) :
    ∃ tok, PtAuth.cacheLookup cache1 a.current_user_key = some tok := by
  unfold PtAuth.auth_flow PtAuth.fetch_token at hrun
  cases hcl : PtAuth.cacheLookup cache0 a.current_user_key with
  | some t => rw [hcl] at hrun; simp at hrun
  | none =>
      rw [hcl] at hrun
      by_cases hs : HttpModel.is_success (endpoint (PtAuth.requestData a)).status
      · rw [if_pos hs] at hrun
        cases hlf : HttpModel.lookupField (endpoint (PtAuth.requestData a)).body "access_token" with
        | some token =>
            rw [hlf] at hrun
            simp at hrun
            rcases hrun with ⟨h1, h2⟩
            rw [← h2]
            exact ⟨token, cacheLookup_cacheInsert cache0 _ token⟩
        | none => rw [hlf] at hrun; simp at hrun
      · rw [if_neg hs] at hrun; simp at hrun

/-- C2: once a token for the current identity is in the process-wide cache,
every authentication step under that identity serves the cached token with no
token-endpoint call; any sequence of such requests performs zero fetches; and
after any successful step that did fetch, the token is cached, so all
subsequent requests under that identity perform zero fetches — at most one
fetch per identity absent a forced refresh. -/
theorem C2_cached_token_reused (a : PtAuth.BearerTokenAuth)
    (endpoint : HttpModel.TokenRequestData → HttpModel.TokenResponse)
    (cache : PtAuth.TokenCache) (tok : String)
    (h : PtAuth.cacheLookup cache a.current_user_key = some tok) :
    (∀ r, PtAuth.auth_flow a cache endpoint r =
      (Except.ok (HttpModel.setHeader r "Authorization" ("Bearer " ++ tok)), cache, false)) ∧
    (∀ requests, PtAuth.authSeq a endpoint requests cache = (cache, 0)) ∧
    (∀ cache0 r r2 cache1,
      PtAuth.auth_flow a cache0 endpoint r = (Except.ok r2, cache1, true) →
      ∀ requests, PtAuth.authSeq a endpoint requests cache1 = (cache1, 0)) := by
  refine ⟨fun r => auth_flow_cache_hit a cache endpoint tok h r,
    authSeq_cache_hit a endpoint cache tok h,
    fun cache0 r r2 cache1 hrun requests => ?_⟩
  obtain ⟨tok2, htok2⟩ := auth_flow_net_ok_caches a cache0 endpoint r r2 cache1 hrun
  exact authSeq_cache_hit a endpoint cache1 tok2 htok2 requests

/-- C2 witness: with the admin token already cached, an authenticated request
returns the cached token and performs no network call. -/
theorem C2_cached_token_reused_witness :
    PtAuth.auth_flow Demo.adminAuth Demo.adminCache Demo.demoEndpoint Demo.demoRequest =
      (Except.ok (HttpModel.setHeader Demo.demoRequest "Authorization" ("Bearer " ++ "tok0")),
        Demo.adminCache, false) :=
  (C2_cached_token_reused Demo.adminAuth Demo.demoEndpoint Demo.adminCache "tok0"
    (by decide)).1 Demo.demoRequest

/-- C8: on a cache miss, a token fetch against a non-2xx endpoint response
fails with the status error and stores nothing; a 2xx response without an
access_token field fails with the missing-field error and stores nothing; a
2xx response with an access_token returns that token and caches it. -/
theorem C8_fetch_token_failure (a : PtAuth.BearerTokenAuth)
    (cache : PtAuth.TokenCache)
    (endpoint : HttpModel.TokenRequestData → HttpModel.TokenResponse)
    (hmiss : PtAuth.cacheLookup cache a.current_user_key = none) :
    (HttpModel.is_success (endpoint (PtAuth.requestData a)).status = false →
      PtAuth.fetch_token a cache endpoint =
        (Except.error (HttpModel.FetchError.httpStatusError
          (endpoint (PtAuth.requestData a)).status), cache, true)) ∧
    (HttpModel.is_success (endpoint (PtAuth.requestData a)).status = true →
      HttpModel.lookupField (endpoint (PtAuth.requestData a)).body "access_token" = none →
      PtAuth.fetch_token a cache endpoint =
        (Except.error HttpModel.FetchError.keyError, cache, true)) ∧
    (∀ tok, HttpModel.is_success (endpoint (PtAuth.requestData a)).status = true →
      HttpModel.lookupField (endpoint (PtAuth.requestData a)).body "access_token" = some tok →
      PtAuth.fetch_token a cache endpoint =
        (Except.ok tok, PtAuth.cacheInsert cache a.current_user_key tok, true)) := by
  refine ⟨fun hs => ?_, fun hs hlf => ?_, fun tok hs hlf => ?_⟩
  · simp [PtAuth.fetch_token, hmiss, hs]
  · simp [PtAuth.fetch_token, hmiss, hs, hlf]
  · simp [PtAuth.fetch_token, hmiss, hs, hlf]

/-- C8 witness: against an endpoint answering 500, the fetch fails with the
status error and the cache stays empty. -/
theorem C8_fetch_token_failure_witness :
    PtAuth.fetch_token Demo.adminAuth [] Demo.endpoint500 =
      (Except.error (HttpModel.FetchError.httpStatusError 500), [], true) :=
  (C8_fetch_token_failure Demo.adminAuth [] Demo.endpoint500 rfl).1 (by decide)

/-- The core _fetch_token always performs a network call. -/
theorem core_fetch_token_always_network (a : CoreAuth.BearerTokenAuth)
    (endpoint : HttpModel.TokenRequestData → HttpModel.TokenResponse) :
    (CoreAuth.fetch_token a endpoint).2 = true := by
  unfold CoreAuth.fetch_token
  by_cases hs : HttpModel.is_success (endpoint (CoreAuth.requestData a)).status
  · rw [if_pos hs]
    cases HttpModel.lookupField (endpoint (CoreAuth.requestData a)).body "access_token" <;> rfl
  · rw [if_neg hs]

/-- C9: refresh_token always fetches from the token endpoint — the network
call happens for every provider state, cached token or not — and on a
successful fetch it overwrites the stored token with the fetched one and
returns it; afterwards the authentication step uses the new token without
fetching again. -/
theorem C9_refresh_token_unconditional (a : CoreAuth.BearerTokenAuth)
    (endpoint : HttpModel.TokenRequestData → HttpModel.TokenResponse) (tok : String)
    (h1 : HttpModel.is_success (endpoint (CoreAuth.requestData a)).status = true)
    (h2 : HttpModel.lookupField (endpoint (CoreAuth.requestData a)).body "access_token"
      = some tok) :
    CoreAuth.refresh_token a endpoint =
      (Except.ok (tok, { a with token := some tok }), true) ∧
    (∀ b, (CoreAuth.refresh_token b endpoint).2 = true) ∧
    (∀ r, CoreAuth.auth_flow { a with token := some tok } endpoint r =
      (Except.ok (HttpModel.setHeader r "Authorization" ("Bearer " ++ tok),
        { a with token := some tok }), false)) := by
  refine ⟨?_, fun b => ?_, fun r => ?_⟩
  · simp [CoreAuth.refresh_token, CoreAuth.fetch_token, h1, h2]
  · have hnet := core_fetch_token_always_network b endpoint
    unfold CoreAuth.refresh_token
    cases hfe : CoreAuth.fetch_token b endpoint with
    | mk res net =>
        rw [hfe] at hnet
        simp at hnet
        cases res <;> simp [hnet]
  · simp [CoreAuth.auth_flow]

/-- C9 witness: a provider already holding token "old" still fetches, returns
the fresh token and overwrites its stored token with it. -/
theorem C9_refresh_token_witness :
    CoreAuth.refresh_token Demo.coreAuthOld Demo.demoEndpoint =
      (Except.ok ("tokNet", { Demo.coreAuthOld with token := some "tokNet" }), true) :=
  (C9_refresh_token_unconditional Demo.coreAuthOld Demo.demoEndpoint "tokNet"
    (by decide) (by decide)).1

/-- add_handler leaves the live transport's hooks in sync with the handler
list (rebuilding them when a transport exists, trivially when none does). -/
theorem add_handler_hooksBound (c : Client.HttpClient) (h : Nat) :
    Client.hooksBound (Client.add_handler c h) = true := by
  unfold Client.add_handler
  cases hc : c.client with
  | none => simp [Client.hooksBound, hc]
  | some t => simp [Client.hooksBound, Client.update_client_hooks, hc]

/-- Folding add_handler over a handler batch appends it to the handler list. -/
theorem foldl_add_handler_handlers (hs : List Nat) (c : Client.HttpClient) :
    (hs.foldl Client.add_handler c).handlers = c.handlers ++ hs := by
  induction hs generalizing c with
  | nil => simp
  | cons h rest ih =>
      rw [List.foldl_cons, ih]
      have hstep : (Client.add_handler c h).handlers = c.handlers ++ [h] := by
        unfold Client.add_handler
        cases hc : c.client <;> simp [hc, Client.update_client_hooks]
      rw [hstep]
      simp

/-- Folding add_handler over a handler batch keeps hooks in sync. -/
theorem foldl_add_handler_hooksBound (hs : List Nat) (c : Client.HttpClient)
    (hb : Client.hooksBound c = true) :
    Client.hooksBound (hs.foldl Client.add_handler c) = true := by
  induction hs generalizing c with
  | nil => simpa using hb
  | cons h rest ih =>
      rw [List.foldl_cons]
      exact ih (Client.add_handler c h) (add_handler_hooksBound c h)

/-- C6: after any sequence of add_handler calls on a client whose transport
hooks are in sync, the transport's bound request-event callbacks and
response-event callbacks are each exactly the handlers' hooks in insertion
order (same list order for both events), the handler list is the original plus
the additions in order, and when a transport already exists a single
add_handler rebuilds both bound lists immediately. -/
theorem C6_add_handler_hook_order (c : Client.HttpClient) (hs : List Nat)
    (hb : Client.hooksBound c = true) :
    Client.hooksBound (hs.foldl Client.add_handler c) = true ∧
    (hs.foldl Client.add_handler c).handlers = c.handlers ++ hs ∧
    (∀ t h, c.client = some t →
      (Client.add_handler c h).client = some { t with
        request_hooks := (c.handlers ++ [h]).map Client.HookFn.onRequest
        response_hooks := (c.handlers ++ [h]).map Client.HookFn.onResponse }) := by
  refine ⟨foldl_add_handler_hooksBound hs c hb, foldl_add_handler_handlers hs c,
    fun t h hct => ?_⟩
  unfold Client.add_handler
  simp [hct, Client.update_client_hooks]

/-- C6 witness: adding handlers 5 and 7 to a live client keeps both bound hook
lists equal to the handler list's hooks in insertion order. -/
theorem C6_add_handler_hook_order_witness :
    Client.hooksBound (([5, 7] : List Nat).foldl Client.add_handler Demo.liveClient) = true ∧
    (([5, 7] : List Nat).foldl Client.add_handler Demo.liveClient).handlers
      = Demo.liveClient.handlers ++ [5, 7] :=
  ⟨(C6_add_handler_hook_order Demo.liveClient [5, 7] (by decide)).1,
    (C6_add_handler_hook_order Demo.liveClient [5, 7] (by decide)).2.1⟩

/-- C3: when an expected status is supplied, send fails with the
unexpected-status error carrying the expected code, the actual code and the
raw body exactly when the response surviving the caller-supplied retry policy
has a different status, and succeeds with that surviving response otherwise —
the check runs on the response the retry policy has accepted. -/
theorem C3_expected_status_check (doRequest : Unit → Pipeline.HttpResponse)
    (retryPolicy : Option ((Unit → Pipeline.HttpResponse) → Pipeline.HttpResponse))
    (e : Nat) :
    ((Pipeline.survivingResponse doRequest retryPolicy).status ≠ e →
      Pipeline.send doRequest retryPolicy (some e) =
        Except.error (Pipeline.SendError.unexpectedStatus e
          (Pipeline.survivingResponse doRequest retryPolicy).status
          (Pipeline.survivingResponse doRequest retryPolicy).bodyText)) ∧
    ((Pipeline.survivingResponse doRequest retryPolicy).status = e →
      Pipeline.send doRequest retryPolicy (some e) =
        Except.ok (Pipeline.survivingResponse doRequest retryPolicy)) := by
  constructor
  · intro hne
    simp [Pipeline.send, Pipeline.check_expected_status, hne]
  · intro heq
    simp [Pipeline.send, Pipeline.check_expected_status, heq]

/-- C3 witness: expected status 200 against a surviving 404 response fails
with the unexpected-status error carrying 200, 404 and the body. -/
theorem C3_expected_status_check_witness :
    Pipeline.send (fun _ => Demo.resp404) none (some 200) =
      Except.error (Pipeline.SendError.unexpectedStatus 200 404 "not found") :=
  (C3_expected_status_check (fun _ => Demo.resp404) none 200).1 (by decide)

/-- C4 (amended): for a body that is a string, dict or list whose str() form
exceeds the 40000-character threshold, _truncate_body returns exactly the
first 40000 characters of the string form followed by the truncation marker. -/
theorem C4_truncate_body_truncates (data : Hook.PyData)
    (htype : data.isTruncatable = true)
    (hlen : Hook.maxBodyLength < data.pyStr.length) :
    Hook.truncate_body data =
      Hook.PyData.str (String.mk (data.pyStr.data.take Hook.maxBodyLength)
        ++ Hook.truncateMessage) := by
  unfold Hook.truncate_body
  rw [htype]
  simp [hlen]

/-- C4 witness: a 50000-character string body is truncated to its first 40000
characters plus the marker. -/
theorem C4_truncate_body_truncates_witness :
    Hook.truncate_body (Hook.PyData.str Demo.body50k) =
      Hook.PyData.str (String.mk (Demo.body50k.data.take Hook.maxBodyLength)
        ++ Hook.truncateMessage) :=
  C4_truncate_body_truncates (Hook.PyData.str Demo.body50k) rfl
    (by
      show Hook.maxBodyLength < (List.replicate 50000 'a').length
      rw [List.length_replicate]
      norm_num [Hook.maxBodyLength])

/-- C4 counterexample: the claim quantifies over every body whose string form
exceeds 40000 characters, but _truncate_body only truncates dict, list and str
values; a body of any other type — here the str() form of a 40001-digit JSON
number, as json.loads can produce — is returned whole, not truncated. -/
theorem C4_truncate_body_counterexample :
    Hook.maxBodyLength < (Hook.PyData.other Demo.bigNumStr).pyStr.length ∧
    Hook.truncate_body (Hook.PyData.other Demo.bigNumStr)
      = Hook.PyData.other Demo.bigNumStr ∧
    Hook.truncate_body (Hook.PyData.other Demo.bigNumStr)
      ≠ Hook.PyData.str (String.mk
          ((Hook.PyData.other Demo.bigNumStr).pyStr.data.take Hook.maxBodyLength)
          ++ Hook.truncateMessage) := by
  refine ⟨?_, rfl, ?_⟩
  · show Hook.maxBodyLength < (List.replicate 40001 '9').length
    rw [List.length_replicate]
    norm_num [Hook.maxBodyLength]
  · intro hEq
    rw [show Hook.truncate_body (Hook.PyData.other Demo.bigNumStr)
        = Hook.PyData.other Demo.bigNumStr from rfl] at hEq
    exact Hook.PyData.noConfusion hEq
